import Mathlib

/-!
Shallow embedding of two widgets of the Frescobaldi repository:

* `frescobaldi_app/widgets/charmap.py`, class `CharMap`: a grid widget over
  an inclusive code-point range with a single selection;
* `frescobaldi_app/svgview/view.py`, class `View`: the SVG view with zoom
  handling and textedit-link processing.

Python 2 machine integers are unbounded, so `int` is modelled as `Int`.
Python's floor division `//` is `Int.fdiv`. `unichr(c)` raises `ValueError`
unless `0 <= c < 0x110000` (wide build); emission results therefore carry an
explicit exception flag. Qt collaborators (font metrics, the document model,
the textedit parser) are external and appear as explicit parameters.
-/

/-- Font model: the two attributes `CharMap` touches, the family (written by
`setDisplayFont` via `QFont.setFamily`) and the point size (written by
`setDisplayFontSize` via `QFont.setPointSize`). The x-height metric comes
from Qt's `QFontMetrics`, an external collaborator, and is passed to the
operations needing it as a function `Font → Int`. -/
structure Font where
  family : String
  pointSize : Int
deriving DecidableEq

/-- State of a `CharMap` widget: the attributes set in `CharMap.__init__`
(charmap.py lines 40-48). `range` is the inclusive pair `(first, last)`;
`selected` is the selected code point or the sentinel -1. -/
structure CharMap where
  showToolTips : Bool
  selected : Int
  column_count : Int
  square : Int
  range : Int × Int
  font : Font
deriving DecidableEq

/-- Initial state from `CharMap.__init__`: tooltips on, no selection,
32 columns, square 24, range (0, 0). -/
def CharMap.init : CharMap :=
  { showToolTips := true
    selected := -1
    column_count := 32
    square := 24
    range := (0, 0)
    font := { family := "", pointSize := 12 } }

/-- Whether `unichr(c)` succeeds in Python 2 (wide build): `0 <= c < 0x110000`.
Outside that range `unichr` raises `ValueError`. -/
def unichrOk (c : Int) : Bool :=
  decide (0 ≤ c ∧ c < 1114112)

/-- Result of a call to `CharMap.select`: the new widget state, whether the
`characterSelected` signal was emitted, and whether the call raised
(`unichr(charcode)` is evaluated before the emission, so a `ValueError`
aborts the emission but the assignment to `_selected` has already run). -/
structure SelectResult where
  state : CharMap
  emitted : Bool
  exc : Bool
deriving DecidableEq

/-- Embedding of `CharMap.select` (charmap.py lines 63-72) for an `int` argument:
normalize out-of-range input to -1, and when the stored selection differs,
store the new value and emit `characterSelected(unichr(charcode))`. -/
def CharMap.select (s : CharMap) (charcode : Int) : SelectResult :=
  let c := if s.range.1 ≤ charcode ∧ charcode ≤ s.range.2 then charcode else -1
  if s.selected ≠ c then
    { state := { s with selected := c }
      emitted := unichrOk c
      exc := !unichrOk c }
  else
    { state := s, emitted := false, exc := false }

/-- Embedding of `CharMap.select` for a single character: `charcode = ord(charcode)`
first, then the `int` path. -/
def CharMap.selectChar (s : CharMap) (ch : Char) : SelectResult :=
  s.select (ch.toNat : Int)

/-- Embedding of `CharMap.setRange` (charmap.py lines 50-54): store the pair and clear
the selection. -/
def CharMap.setRange (s : CharMap) (first last : Int) : CharMap :=
  { s with range := (first, last), selected := -1 }

/-- Embedding of `CharMap.setColumnCount` (charmap.py lines 92-97): `count = max(1, count)`. -/
def CharMap.setColumnCount (s : CharMap) (count : Int) : CharMap :=
  { s with column_count := max 1 count }

/-- Embedding of `CharMap.setDisplayFont` (charmap.py lines 79-81): copies only the family
of the given font into the stored font; the square is not recomputed. -/
def CharMap.setDisplayFont (s : CharMap) (font : Font) : CharMap :=
  { s with font := { s.font with family := font.family } }

/-- Embedding of `CharMap.setDisplayFontSize` (charmap.py lines 86-90): set the point
size, then `_square = max(24, QFontMetrics(self._font).xHeight() * 3)`,
with the metric `xh` passed in for `QFontMetrics`. -/
def CharMap.setDisplayFontSize (xh : Font → Int) (s : CharMap) (size : Int) : CharMap :=
  let f : Font := { s.font with pointSize := size }
  { s with font := f, square := max 24 (xh f * 3) }

/-- Embedding of `CharMap.charcodeAt` (charmap.py lines 172-179): floor-divide the
position by the square; if `col <= column_count` and the linear code is
at most `last`, return it, else -1. -/
def CharMap.charcodeAt (s : CharMap) (x y : Int) : Int :=
  let row := Int.fdiv y s.square
  let col := Int.fdiv x s.square
  if col ≤ s.column_count then
    let charcode := s.range.1 + row * s.column_count + col
    if charcode ≤ s.range.2 then charcode else -1
  else -1

/-- Mouse press event data used by `CharMap.mousePressEvent`: the position
and whether the pressed button is `Qt.RightButton`. -/
structure MouseEvent where
  x : Int
  y : Int
  rightButton : Bool
deriving DecidableEq

/-- Result of `CharMap.mousePressEvent`: new state, whether each of the
`characterSelected` and `characterClicked` signals was emitted, and whether
the handler raised. -/
structure PressResult where
  state : CharMap
  selectedEmit : Bool
  clickedEmit : Bool
  exc : Bool
deriving DecidableEq

/-- Embedding of `CharMap.mousePressEvent` (charmap.py lines 158-163): if `charcodeAt`
is not -1, call `select`; an exception there propagates, otherwise for a
non-right button emit `characterClicked(unichr(charcode))`, whose `unichr`
can itself raise. -/
def CharMap.mousePressEvent (s : CharMap) (ev : MouseEvent) : PressResult :=
  let charcode := s.charcodeAt ev.x ev.y
  if charcode ≠ -1 then
    let r := s.select charcode
    if r.exc then
      { state := r.state, selectedEmit := r.emitted, clickedEmit := false, exc := true }
    else if ev.rightButton then
      { state := r.state, selectedEmit := r.emitted, clickedEmit := false, exc := false }
    else if unichrOk charcode then
      { state := r.state, selectedEmit := r.emitted, clickedEmit := true, exc := false }
    else
      { state := r.state, selectedEmit := r.emitted, clickedEmit := false, exc := true }
  else
    { state := s, selectedEmit := false, clickedEmit := false, exc := false }

/-- Selection invariant of the spec: the selected code point, when not the
sentinel -1, lies within the inclusive range. -/
def CharMap.selInvariant (s : CharMap) : Prop :=
  s.selected ≠ -1 → s.range.1 ≤ s.selected ∧ s.selected ≤ s.range.2

instance (s : CharMap) : Decidable s.selInvariant := by
  unfold CharMap.selInvariant
  infer_instance

/-- Zoom-relevant state of the SVG `View`: the zoom factor kept by the
underlying `QWebView`. Zoom factors are modelled as exact rationals; the
Python code manipulates IEEE doubles, which this embedding idealizes. -/
structure ViewState where
  zoomFactor : ℚ
deriving DecidableEq

/-- Result of a zoom operation: the new view state and whether the
`zoomFactorChanged` signal was emitted. -/
structure ZoomResult where
  state : ViewState
  emitted : Bool
deriving DecidableEq

/-- Embedding of `View.setZoomFactor` (view.py lines 222-226): remember whether the value
differs from the current factor, store it, and emit `zoomFactorChanged`
only when it differed. -/
def View.setZoomFactor (s : ViewState) (value : ℚ) : ZoomResult :=
  let changed := decide (s.zoomFactor ≠ value)
  { state := { zoomFactor := value }, emitted := changed }

/-- Embedding of `View.zoomIn` (view.py lines 213-214): multiply the factor by 1.1. -/
def View.zoomIn (s : ViewState) : ZoomResult :=
  View.setZoomFactor s (s.zoomFactor * (11 / 10))

/-- Embedding of `View.zoomOut` (view.py lines 216-217): divide the factor by 1.1. -/
def View.zoomOut (s : ViewState) : ZoomResult :=
  View.setZoomFactor s (s.zoomFactor / (11 / 10))

/-- Embedding of `View.zoomOriginal` (view.py lines 219-220): set the factor to 1.0. -/
def View.zoomOriginal (s : ViewState) : ZoomResult :=
  View.setZoomFactor s 1

/-- Textedit link target, the result of `textedit.link(url)` on a valid
`textedit://` URL: a filename, a 1-based line and a column. -/
structure TextEditLink where
  filename : String
  line : Int
  column : Int

/-- Modelled from the spec: environment of `View.doTextEdit`, packaging the
collaborators that live outside src/. `parseLink` is `textedit.link`
("an opaque reference parsed from a click location, resolving to
(document, line, column)"; `none` for a non-textedit URL); `findDocument`
is the loop of `View.document` over `app.documents` with scratchdir
matching; `openUrl` is `app.openUrl` for the `load=True` path;
`blockPosition d l` is `doc.findBlockByNumber(l).position()`; `positions`
is `pointandclick.positions` on the cursor position; `currentDocument`
is `mainwindow().currentDocument()`. Documents are identified by `Nat`. -/
structure ViewEnv where
  parseLink : String → Option TextEditLink
  findDocument : String → Option Nat
  openUrl : String → Option Nat
  blockPosition : Nat → Int → Int
  positions : Nat → Int → List Int
  currentDocument : Option Nat

/-- Embedding of `View.document` (view.py lines 81-96): search the open documents for a
matching filename; when not found and `load` holds, open the file. -/
def View.document (env : ViewEnv) (filename : String) (load : Bool) : Option Nat :=
  match env.findDocument filename with
  | some d => some d
  | none => if load then env.openUrl filename else none

/-- Observable outcome of `View.doTextEdit`: the returned bool, whether
highlighting was applied, whether the editor cursor was set, and whether
the document was brought to front (with blink, activation and focus). -/
structure TextEditResult where
  recognized : Bool
  highlighted : Bool
  cursorSet : Bool
  broughtToFront : Bool
deriving DecidableEq

/-- Embedding of `View.doTextEdit` (view.py lines 161-191): return `false` for a
non-textedit URL; otherwise resolve the document (loading it only when
`setCursor` holds), and when found compute the cursor position, highlight
only when `pointandclick.positions` is non-empty and the document is the
current one, move the cursor and bring the document to front only when
`setCursor` holds; return `true`. -/
def View.doTextEdit (env : ViewEnv) (url : String) (setCursor : Bool) : TextEditResult :=
  match env.parseLink url with
  | none => { recognized := false, highlighted := false, cursorSet := false, broughtToFront := false }
  | some t =>
    match View.document env t.filename setCursor with
    | none => { recognized := true, highlighted := false, cursorSet := false, broughtToFront := false }
    | some d =>
      let p := env.blockPosition d (t.line - 1) + t.column
      let cursors := env.positions d p
      let hl := !cursors.isEmpty && decide (env.currentDocument = some d)
      { recognized := true, highlighted := hl, cursorSet := setCursor, broughtToFront := setCursor }

/-- Demonstration metric for the x-height: a metric that depends on the
font family, as Qt's `QFontMetrics.xHeight` does. -/
def xhDemo : Font → Int :=
  fun f => if f.family = "Wide" then 40 else 5

/-- Concrete state of the spec scenario: range (65, 90), 32 columns,
square 24, no selection. -/
def scenarioState : CharMap :=
  (CharMap.init.setRange 65 90).setColumnCount 32

/-- A helper: `select` always leaves the widget satisfying the selection
invariant, whatever the input and the prior state. -/
theorem select_state_selInvariant (s : CharMap) (c : Int) :
    (s.select c).state.selInvariant := by
  unfold CharMap.select CharMap.selInvariant
  by_cases hin : s.range.1 ≤ c ∧ c ≤ s.range.2 <;>
    by_cases hch : s.selected ≠ (if s.range.1 ≤ c ∧ c ≤ s.range.2 then c else -1) <;>
    simp_all

/-- A helper: floor division is determined by the enclosing multiple
bounds when the divisor is positive. -/
theorem fdiv_eq_of_bounds {a b q : Int} (hb : 0 < b)
    (h1 : q * b ≤ a) (h2 : a < (q + 1) * b) : Int.fdiv a b = q := by
  rw [Int.fdiv_eq_ediv _ (le_of_lt hb)]
  have hq : q ≤ a / b := (Int.le_ediv_iff_mul_le hb).mpr h1
  have hq2 : a / b < q + 1 := (Int.ediv_lt_iff_lt_mul hb).mpr h2
  omega

/-- C8: after CharMap.setColumnCount(n) the column count equals max(1, n);
passing 0 or any negative value yields column count 1, and the column count
is never below 1. -/
theorem setColumnCount_clamps (s : CharMap) (n m : Int) (hm : m ≤ 0) :
    (s.setColumnCount n).column_count = max 1 n ∧
    1 ≤ (s.setColumnCount n).column_count ∧
    (s.setColumnCount m).column_count = 1 := by
  refine ⟨rfl, le_max_left _ _, ?_⟩
  unfold CharMap.setColumnCount
  simp
  omega

/-- C8 witness: the clamping facts at n = 7 and m = -3 from the initial
state. -/
theorem setColumnCount_clamps_witness :
    (-3 : Int) ≤ 0 ∧
    ((CharMap.init.setColumnCount 7).column_count = max 1 7 ∧
     1 ≤ (CharMap.init.setColumnCount 7).column_count ∧
     (CharMap.init.setColumnCount (-3)).column_count = 1) :=
  ⟨by decide, setColumnCount_clamps CharMap.init 7 (-3) (by decide)⟩

/-- C9: in state range (65, 90), 32 columns, square 24, no selection, a
press with a non-right button at pixel (24, 0) selects code point 66 and
emits both the characterSelected and characterClicked signals (and raises
no exception). -/
theorem mousePress_scenario :
    (scenarioState.mousePressEvent { x := 24, y := 0, rightButton := false }).state.selected = 66 ∧
    (scenarioState.mousePressEvent { x := 24, y := 0, rightButton := false }).selectedEmit = true ∧
    (scenarioState.mousePressEvent { x := 24, y := 0, rightButton := false }).clickedEmit = true ∧
    (scenarioState.mousePressEvent { x := 24, y := 0, rightButton := false }).exc = false := by
  decide

/-- C3 counterexample: with a family-sensitive x-height metric, after
setDisplayFont the square (still 24) differs from
max(24, 3 * x-height of the current font) (which is 120): setDisplayFont
does not recompute the square. -/
theorem setDisplayFont_square_counterexample :
    ¬ ((CharMap.init.setDisplayFont { family := "Wide", pointSize := 12 }).square
        = max 24 (xhDemo (CharMap.init.setDisplayFont { family := "Wide", pointSize := 12 }).font * 3)) := by
  decide

/-- C3 (amended): after setDisplayFontSize the square equals
max(24, x-height of the updated font times 3); setDisplayFont only copies
the family and leaves the square unchanged. -/
theorem displayFont_square (s : CharMap) (xh : Font → Int) (size : Int) (f : Font) :
    (CharMap.setDisplayFontSize xh s size).square
      = max 24 (xh (CharMap.setDisplayFontSize xh s size).font * 3) ∧
    (s.setDisplayFont f).square = s.square :=
  ⟨rfl, rfl⟩

/-- C4: from the state with range (65, 90) and selection 65, select(200)
normalizes to -1, stores -1, and then raises ValueError evaluating
unichr(-1) for the characterSelected emission, so the call does not
complete normally. -/
theorem select_raises_on_deselect :
    (((CharMap.init.setRange 65 90).select 65).state.select 200).exc = true ∧
    (((CharMap.init.setRange 65 90).select 65).state.select 200).emitted = false ∧
    (((CharMap.init.setRange 65 90).select 65).state.select 200).state.selected = -1 := by
  decide

/-- C1: select on an input outside the inclusive range (a numeric code
point, or a character whose code point is outside) leaves the selection at
the sentinel -1, and the characterSelected signal is emitted only when the
stored selection actually changes. -/
theorem select_out_of_range_none (s : CharMap) (c : Int) (ch : Char)
    (hc : ¬ (s.range.1 ≤ c ∧ c ≤ s.range.2))
    (hch : ¬ (s.range.1 ≤ (ch.toNat : Int) ∧ (ch.toNat : Int) ≤ s.range.2)) :
    (s.select c).state.selected = -1 ∧
    (s.selectChar ch).state.selected = -1 ∧
    ∀ (s₂ : CharMap) (c₂ : Int),
      (s₂.select c₂).emitted = true → (s₂.select c₂).state.selected ≠ s₂.selected := by
  refine ⟨?_, ?_, ?_⟩
  · unfold CharMap.select
    simp only [hc, if_false]
    by_cases h : s.selected ≠ (-1 : Int) <;> simp_all
  · unfold CharMap.selectChar CharMap.select
    simp only [hch, if_false]
    by_cases h : s.selected ≠ (-1 : Int) <;> simp_all
  · intro s₂ c₂ hem
    unfold CharMap.select at *
    by_cases h : s₂.selected ≠ (if s₂.range.1 ≤ c₂ ∧ c₂ ≤ s₂.range.2 then c₂ else -1) <;>
      simp_all
    exact fun he => h he.symm

/-- C1 witness: from range (65, 90), the out-of-range inputs 5 and the
character z (code 122) both leave the selection at -1. -/
theorem select_out_of_range_none_witness :
    (¬ (((CharMap.init.setRange 65 90).range.1 ≤ (5 : Int)) ∧
        ((5 : Int) ≤ (CharMap.init.setRange 65 90).range.2))) ∧
    (((CharMap.init.setRange 65 90).select 5).state.selected = -1 ∧
     ((CharMap.init.setRange 65 90).selectChar (Char.ofNat 122)).state.selected = -1 ∧
     ∀ (s₂ : CharMap) (c₂ : Int),
       (s₂.select c₂).emitted = true → (s₂.select c₂).state.selected ≠ s₂.selected) :=
  ⟨by decide,
   select_out_of_range_none (CharMap.init.setRange 65 90) 5 (Char.ofNat 122)
     (by decide) (by decide)⟩

/-- C2: from a state satisfying the selection invariant, each public
operation (setRange, select, setColumnCount, setDisplayFont,
setDisplayFontSize, mousePressEvent) yields a state satisfying it again,
and setRange in particular resets the selection to the sentinel -1. -/
theorem charmap_selInvariant_preserved (s : CharMap) (xh : Font → Int)
    (a b cnt sz c : Int) (f : Font) (ev : MouseEvent)
    (hs : s.selInvariant) :
    (s.setRange a b).selected = -1 ∧
    (s.setRange a b).selInvariant ∧
    (s.select c).state.selInvariant ∧
    (s.setColumnCount cnt).selInvariant ∧
    (s.setDisplayFont f).selInvariant ∧
    (CharMap.setDisplayFontSize xh s sz).selInvariant ∧
    (s.mousePressEvent ev).state.selInvariant := by
  refine ⟨rfl, ?_, select_state_selInvariant s c, hs, hs, hs, ?_⟩
  · intro h
    exact absurd rfl h
  · unfold CharMap.mousePressEvent
    by_cases h : s.charcodeAt ev.x ev.y ≠ -1
    · have := select_state_selInvariant s (s.charcodeAt ev.x ev.y)
      by_cases h2 : (s.select (s.charcodeAt ev.x ev.y)).exc = true <;>
        by_cases h3 : ev.rightButton = true <;>
        by_cases h4 : unichrOk (s.charcodeAt ev.x ev.y) = true <;>
        simp_all
    · simp_all

/-- C2 witness: the invariant preservation facts at the initial state with
concrete arguments. -/
theorem charmap_selInvariant_preserved_witness :
    CharMap.init.selInvariant ∧
    ((CharMap.init.setRange 65 90).selected = -1 ∧
     (CharMap.init.setRange 65 90).selInvariant ∧
     (CharMap.init.select 70).state.selInvariant ∧
     (CharMap.init.setColumnCount 8).selInvariant ∧
     (CharMap.init.setDisplayFont { family := "Wide", pointSize := 10 }).selInvariant ∧
     (CharMap.setDisplayFontSize xhDemo CharMap.init 11).selInvariant ∧
     (CharMap.init.mousePressEvent { x := 3, y := 3, rightButton := false }).state.selInvariant) :=
  ⟨by decide,
   charmap_selInvariant_preserved CharMap.init xhDemo 65 90 8 11 70
     { family := "Wide", pointSize := 10 } { x := 3, y := 3, rightButton := false }
     (by decide)⟩

/-- C6 counterexample: with the selection already 66 and 66 inside the
range (65, 90), two successive select(66) calls emit the signal zero
times, not exactly once. -/
theorem select_idempotent_counterexample :
    ((65 : Int) ≤ 66 ∧ (66 : Int) ≤ 90) ∧
    (((CharMap.init.setRange 65 90).select 66).state.select 66).emitted = false ∧
    ((((CharMap.init.setRange 65 90).select 66).state.select 66).state.select 66).emitted = false := by
  decide

/-- C6 (amended): for a code point c inside the range, the second of two
successive select(c) calls emits nothing, raises nothing and leaves the
state unchanged, and the first call emits exactly when the prior selection
differs from c and c is a representable character; hence the pair emits at
most once. -/
theorem select_idempotent (s : CharMap) (c : Int)
    (h1 : s.range.1 ≤ c) (h2 : c ≤ s.range.2) :
    ((s.select c).state.select c).emitted = false ∧
    ((s.select c).state.select c).exc = false ∧
    ((s.select c).state.select c).state = (s.select c).state ∧
    ((s.select c).emitted = true ↔ (s.selected ≠ c ∧ unichrOk c = true)) := by
  have hin : s.range.1 ≤ c ∧ c ≤ s.range.2 := ⟨h1, h2⟩
  unfold CharMap.select
  by_cases h : s.selected ≠ c <;> simp_all

/-- C6 witness: from range (65, 90) with no selection, the double call at
66 has a silent, stateless second call, and the first call emits because
the prior selection -1 differs from 66. -/
theorem select_idempotent_witness :
    ((CharMap.init.setRange 65 90).range.1 ≤ (66 : Int) ∧
     (66 : Int) ≤ (CharMap.init.setRange 65 90).range.2) ∧
    ((((CharMap.init.setRange 65 90).select 66).state.select 66).emitted = false ∧
     (((CharMap.init.setRange 65 90).select 66).state.select 66).exc = false ∧
     (((CharMap.init.setRange 65 90).select 66).state.select 66).state
        = ((CharMap.init.setRange 65 90).select 66).state ∧
     (((CharMap.init.setRange 65 90).select 66).emitted = true ↔
        ((CharMap.init.setRange 65 90).selected ≠ 66 ∧ unichrOk 66 = true))) :=
  ⟨by decide,
   select_idempotent (CharMap.init.setRange 65 90) 66 (by decide) (by decide)⟩

/-- C7: one zoomIn followed by one zoomOut restores the zoom factor
exactly (in the rational idealization of the doubles, so within any
floating-point tolerance), zoomOriginal always yields exactly 1, and
setZoomFactor emits zoomFactorChanged exactly when the value changes. -/
theorem zoom_round_trip (s : ViewState) (v : ℚ) :
    (View.zoomOut (View.zoomIn s).state).state.zoomFactor = s.zoomFactor ∧
    (View.zoomOriginal s).state.zoomFactor = 1 ∧
    ((View.setZoomFactor s v).emitted = true ↔ s.zoomFactor ≠ v) := by
  refine ⟨?_, rfl, by simp [View.setZoomFactor]⟩
  unfold View.zoomOut View.zoomIn View.setZoomFactor
  simp only
  rw [mul_div_assoc, div_self (by norm_num : (11 / 10 : ℚ) ≠ 0), mul_one]

/-- C5: positions whose x coordinate falls in the column one past the last
grid column (the column test is col <= column_count, not col <
column_count) yield the code point first + row * column_count +
column_count, the first cell of the next visual row, rather than -1, and a
press there changes the selection to that code point; in general, for
nonnegative positions, charcodeAt returns -1 exactly when the computed
cell fails the col <= column_count test or its code point exceeds last. -/
theorem charcodeAt_overflow_column (s : CharMap) (x y : Int) (btn : Bool)
    (hf : 0 ≤ s.range.1) (hcc : 1 ≤ s.column_count) (hsq : 1 ≤ s.square)
    (hy : 0 ≤ y)
    (hx1 : s.column_count * s.square ≤ x)
    (hx2 : x < (s.column_count + 1) * s.square)
    (hlast : s.range.1 + Int.fdiv y s.square * s.column_count + s.column_count ≤ s.range.2) :
    s.charcodeAt x y = s.range.1 + Int.fdiv y s.square * s.column_count + s.column_count ∧
    s.charcodeAt x y ≠ -1 ∧
    (s.mousePressEvent { x := x, y := y, rightButton := btn }).state.selected
      = s.range.1 + Int.fdiv y s.square * s.column_count + s.column_count ∧
    ∀ x₂ y₂ : Int, 0 ≤ x₂ → 0 ≤ y₂ →
      (s.charcodeAt x₂ y₂ = -1 ↔
        ¬ (Int.fdiv x₂ s.square ≤ s.column_count ∧
           s.range.1 + Int.fdiv y₂ s.square * s.column_count + Int.fdiv x₂ s.square ≤ s.range.2)) := by
  have hcol : Int.fdiv x s.square = s.column_count :=
    fdiv_eq_of_bounds (by omega) hx1 hx2
  have hrow : 0 ≤ Int.fdiv y s.square := Int.fdiv_nonneg hy (by omega)
  have hprod : 0 ≤ Int.fdiv y s.square * s.column_count :=
    mul_nonneg hrow (by omega)
  have hcode : s.charcodeAt x y
      = s.range.1 + Int.fdiv y s.square * s.column_count + s.column_count := by
    unfold CharMap.charcodeAt
    rw [hcol]
    simp [hlast]
  have hne : s.charcodeAt x y ≠ -1 := by
    rw [hcode]
    intro hcontra
    linarith [hf, hprod]
  have hin : s.range.1 ≤ s.range.1 + Int.fdiv y s.square * s.column_count + s.column_count ∧
      s.range.1 + Int.fdiv y s.square * s.column_count + s.column_count ≤ s.range.2 :=
    ⟨by linarith, hlast⟩
  have hsel : (s.select (s.range.1 + Int.fdiv y s.square * s.column_count + s.column_count)).state.selected
      = s.range.1 + Int.fdiv y s.square * s.column_count + s.column_count := by
    unfold CharMap.select
    simp only [hin, and_self, if_true]
    by_cases h : s.selected
        ≠ s.range.1 + Int.fdiv y s.square * s.column_count + s.column_count <;>
      simp_all
  refine ⟨hcode, hne, ?_, ?_⟩
  · unfold CharMap.mousePressEvent
    simp only
    rw [hcode] at hne ⊢
    simp only [if_pos hne]
    split <;> try rw [hsel]
    split <;> try rw [hsel]
    split <;> rw [hsel]
  · intro x₂ y₂ hx₂ hy₂
    have hcol2 : 0 ≤ Int.fdiv x₂ s.square := Int.fdiv_nonneg hx₂ (by omega)
    have hrow2 : 0 ≤ Int.fdiv y₂ s.square := Int.fdiv_nonneg hy₂ (by omega)
    have hprod2 : 0 ≤ Int.fdiv y₂ s.square * s.column_count :=
      mul_nonneg hrow2 (by omega)
    unfold CharMap.charcodeAt
    by_cases hA : Int.fdiv x₂ s.square ≤ s.column_count <;>
      by_cases hB : s.range.1 + Int.fdiv y₂ s.square * s.column_count + Int.fdiv x₂ s.square
          ≤ s.range.2 <;>
      simp [hA, hB]
    intro hcontra
    linarith [hf, hprod2, hcol2]

/-- C5 witness: with range (65, 100), 32 columns and square 24, the
position (770, 0) lies in the overflow column 32; charcodeAt returns 97
and a press there selects 97. -/
theorem charcodeAt_overflow_column_witness :
    (0 ≤ (((CharMap.init.setRange 65 100).setColumnCount 32)).range.1 ∧
     1 ≤ (((CharMap.init.setRange 65 100).setColumnCount 32)).column_count ∧
     1 ≤ (((CharMap.init.setRange 65 100).setColumnCount 32)).square ∧
     (0 : Int) ≤ 0 ∧
     (((CharMap.init.setRange 65 100).setColumnCount 32)).column_count
        * (((CharMap.init.setRange 65 100).setColumnCount 32)).square ≤ 770 ∧
     (770 : Int) < ((((CharMap.init.setRange 65 100).setColumnCount 32)).column_count + 1)
        * (((CharMap.init.setRange 65 100).setColumnCount 32)).square) ∧
    ((((CharMap.init.setRange 65 100).setColumnCount 32)).charcodeAt 770 0 = 97 ∧
     ((((CharMap.init.setRange 65 100).setColumnCount 32)).mousePressEvent
        { x := 770, y := 0, rightButton := false }).state.selected = 97) := by
  have h := charcodeAt_overflow_column ((CharMap.init.setRange 65 100).setColumnCount 32)
    770 0 false (by decide) (by decide) (by decide) (by decide) (by decide) (by decide) (by decide)
  exact ⟨by decide, by
    have h1 := h.1
    have h3 := h.2.2.1
    constructor
    · rw [h1]; decide
    · rw [h3]; decide⟩

/-- C10: processing a valid textedit link with moveCursor false when the
target document is not the active one applies no highlighting, sets no
cursor, brings nothing to front, and returns true; and in general
highlighting is applied only when the resolved document is the active
one. -/
theorem doTextEdit_nonactive_no_highlight (env : ViewEnv) (url : String) (t : TextEditLink)
    (hparse : env.parseLink url = some t)
    (hactive : ∀ d, env.findDocument t.filename = some d → env.currentDocument ≠ some d) :
    (View.doTextEdit env url false).recognized = true ∧
    (View.doTextEdit env url false).highlighted = false ∧
    (View.doTextEdit env url false).cursorSet = false ∧
    (View.doTextEdit env url false).broughtToFront = false ∧
    ∀ (env₂ : ViewEnv) (url₂ : String) (b : Bool),
      (View.doTextEdit env₂ url₂ b).highlighted = true →
      ∃ t₂ d, env₂.parseLink url₂ = some t₂ ∧
        View.document env₂ t₂.filename b = some d ∧
        env₂.currentDocument = some d := by
  have heq : ∀ (env₂ : ViewEnv) (url₂ : String) (t₂ : TextEditLink) (b : Bool),
      env₂.parseLink url₂ = some t₂ →
      View.doTextEdit env₂ url₂ b =
        (match View.document env₂ t₂.filename b with
         | none =>
           { recognized := true, highlighted := false, cursorSet := false, broughtToFront := false }
         | some d =>
           { recognized := true,
             highlighted :=
               !(env₂.positions d (env₂.blockPosition d (t₂.line - 1) + t₂.column)).isEmpty
                 && decide (env₂.currentDocument = some d),
             cursorSet := b, broughtToFront := b }) := by
    intro env₂ url₂ t₂ b hp
    unfold View.doTextEdit
    rw [hp]
  have hgen : ∀ (env₂ : ViewEnv) (url₂ : String) (b : Bool),
      (View.doTextEdit env₂ url₂ b).highlighted = true →
      ∃ t₂ d, env₂.parseLink url₂ = some t₂ ∧
        View.document env₂ t₂.filename b = some d ∧
        env₂.currentDocument = some d := by
    intro env₂ url₂ b hhl
    cases hp : env₂.parseLink url₂ with
    | none =>
      unfold View.doTextEdit at hhl
      rw [hp] at hhl
      simp at hhl
    | some t₂ =>
      rw [heq env₂ url₂ t₂ b hp] at hhl
      cases hdoc : View.document env₂ t₂.filename b with
      | none =>
        rw [hdoc] at hhl
        simp at hhl
      | some d =>
        rw [hdoc] at hhl
        simp only [Bool.and_eq_true, decide_eq_true_eq] at hhl
        exact ⟨t₂, d, rfl, hdoc, hhl.2⟩
  rw [heq env url t false hparse]
  cases hdoc : View.document env t.filename false with
  | none =>
    exact ⟨rfl, rfl, rfl, rfl, hgen⟩
  | some d =>
    have hfind : env.findDocument t.filename = some d := by
      unfold View.document at hdoc
      cases hf : env.findDocument t.filename with
      | some d₂ =>
        rw [hf] at hdoc
        simp at hdoc
        rw [hdoc]
      | none =>
        rw [hf] at hdoc
        simp at hdoc
    have hne := hactive d hfind
    refine ⟨rfl, ?_, rfl, rfl, hgen⟩
    simp [hne]

/-- Concrete environment for the textedit scenario: the URL
textedit://file.ly:10:4 parses to (file.ly, 10, 4), file.ly is the open
document 1, and the active document is a different document 2. -/
def envDemo : ViewEnv :=
  { parseLink := fun u =>
      if u = "textedit://file.ly:10:4" then
        some { filename := "file.ly", line := 10, column := 4 }
      else none
    findDocument := fun f => if f = "file.ly" then some 1 else none
    openUrl := fun _ => none
    blockPosition := fun _ l => 80 * l
    positions := fun _ p => [p]
    currentDocument := some 2 }

/-- C10 witness: the scenario link in the concrete environment is
recognized without highlighting, cursor movement or raising to front. -/
theorem doTextEdit_nonactive_no_highlight_witness :
    envDemo.parseLink "textedit://file.ly:10:4"
      = some { filename := "file.ly", line := 10, column := 4 } ∧
    ((View.doTextEdit envDemo "textedit://file.ly:10:4" false).recognized = true ∧
     (View.doTextEdit envDemo "textedit://file.ly:10:4" false).highlighted = false ∧
     (View.doTextEdit envDemo "textedit://file.ly:10:4" false).cursorSet = false ∧
     (View.doTextEdit envDemo "textedit://file.ly:10:4" false).broughtToFront = false ∧
     ∀ (env₂ : ViewEnv) (url₂ : String) (b : Bool),
       (View.doTextEdit env₂ url₂ b).highlighted = true →
       ∃ t₂ d, env₂.parseLink url₂ = some t₂ ∧
         View.document env₂ t₂.filename b = some d ∧
         env₂.currentDocument = some d) :=
  ⟨by simp [envDemo],
   doTextEdit_nonactive_no_highlight envDemo "textedit://file.ly:10:4"
     { filename := "file.ly", line := 10, column := 4 }
     (by simp [envDemo])
     (by intro d hd; simp [envDemo] at hd ⊢; omega)⟩

